import Mathlib

/-!
# Verification of the arq-langchain-fastapi asynchronous task gateway

A shallow embedding of the repository's core: the settings object built from
the process environment (`app/core/config.py`), the arq worker configuration
(`app/worker.py`, `WorkerSettings`), the task-executor invocation
(`process_langchain_request`), the `/chat` dispatcher (`app/main.py`, `chat`),
and the queue monitor loop (`tools/monitor_queue.py`, `ArqMonitor.print_stats`).
Theorems settle the spec's claims against these definitions.
-/

set_option autoImplicit false

namespace ArqGateway

/-! ## Process environment

The environment is a finite association list of variable names to string
values; `Env.get` is `os.getenv` / pydantic-settings lookup (first binding
wins, `none` when the variable is absent from every settings source). -/

def Env : Type := List (String × String)

def Env.get (env : Env) (k : String) : Option String :=
  (List.find? (fun p => p.1 = k) env).map (fun p => p.2)

/-- `os.getenv(k, default)`: the variable's value when present, else the
default string. -/
def Env.getStr (env : Env) (k : String) (dflt : String) : String :=
  (env.get k).getD dflt

/-- `int(os.getenv(k, default))` / pydantic int coercion: absent means the
default; a present value must parse as a decimal natural, otherwise settings
construction fails with a validation error. -/
def Env.getNat (env : Env) (k : String) (dflt : Nat) : Except String Nat :=
  match env.get k with
  | none => Except.ok dflt
  | some v =>
    match v.toNat? with
    | some n => Except.ok n
    | none => Except.error ("invalid int value for " ++ k)

/-! ## Settings (`app/core/config.py`, class `Settings`)

Field for field from the source.  `API_BASE_URL` is declared twice in the
Python class body; the second (Optional, with an `os.environ.get` default)
is the one that stands. -/

structure Settings where
  GOOGLE_API_KEY : String
  MODEL_NAME : String
  OUTPUT_FOLDER : String
  MAX_CONCURRENCY : Nat
  MAX_OUTPUT_TOKENS : Nat
  API_BASE_URL : Option String
  FASTAPI_KEY : String
  MAX_TASK_RUNTIME : Nat
  REDIS_HOST : String
  REDIS_PORT : Nat
  API_CONCURRENCY_LIMIT : Nat
  deriving Repr, DecidableEq

/-- `get_settings()` at process start: pydantic `Settings()` construction.
`GOOGLE_API_KEY : str` has no default, so an environment with no such
variable makes construction fail (pydantic ValidationError); every other
field falls back to its declared default. -/
def get_settings (env : Env) : Except String Settings :=
  match env.get "GOOGLE_API_KEY" with
  | none => Except.error "ValidationError: GOOGLE_API_KEY field required"
  | some key =>
    match env.getNat "MAX_CONCURRENCY" 10 with
    | Except.error e => Except.error e
    | Except.ok maxConc =>
    match env.getNat "MAX_OUTPUT_TOKENS" 8192 with
    | Except.error e => Except.error e
    | Except.ok maxTok =>
    match env.getNat "MAX_TASK_RUNTIME" 3600 with
    | Except.error e => Except.error e
    | Except.ok maxRuntime =>
    match env.getNat "REDIS_PORT" 6379 with
    | Except.error e => Except.error e
    | Except.ok redisPort =>
    match env.getNat "API_CONCURRENCY_LIMIT" 10 with
    | Except.error e => Except.error e
    | Except.ok apiConc =>
    Except.ok
      { GOOGLE_API_KEY := key
        MODEL_NAME := env.getStr "MODEL_NAME" "gemini-2.0-flash"
        OUTPUT_FOLDER := env.getStr "OUTPUT_FOLDER" "output_1"
        MAX_CONCURRENCY := maxConc
        MAX_OUTPUT_TOKENS := maxTok
        API_BASE_URL := some (env.getStr "API_BASE_URL" "https://api-dev.maverickcosts.com")
        FASTAPI_KEY := env.getStr "FASTAPI_KEY" "your-api-key-here"
        MAX_TASK_RUNTIME := maxRuntime
        REDIS_HOST := env.getStr "REDIS_HOST" "redis"
        REDIS_PORT := redisPort
        API_CONCURRENCY_LIMIT := apiConc }

/-! ## Worker configuration (`app/worker.py`, class `WorkerSettings`) -/

structure WorkerSettings where
  redis_host : String
  redis_port : Nat
  max_jobs : Nat
  job_timeout : Nat
  keep_result : Nat
  max_tries : Nat
  deriving Repr, DecidableEq

/-- The `WorkerSettings` class body: redis host/port and `max_jobs` come from
the settings object; `job_timeout`, `keep_result` and `max_tries` are the
literals `60`, `300`, `3` written in the class. -/
def mkWorkerSettings (s : Settings) : WorkerSettings :=
  { redis_host := s.REDIS_HOST
    redis_port := s.REDIS_PORT
    max_jobs := s.API_CONCURRENCY_LIMIT
    job_timeout := 60
    keep_result := 300
    max_tries := 3 }

/-! ## Task executor invocation (`app/worker.py`, `process_langchain_request`) -/

/-- The keyword arguments handed to `ChatGoogleGenerativeAI(...)`.
Temperature is a real-valued parameter; the worker passes the literal `0.0`,
modelled as the rational `0`. -/
structure LLMConfig where
  model : String
  api_key : String
  temperature : ℚ
  max_tokens : Nat
  deriving Repr, DecidableEq

/-- The constructor call inside `process_langchain_request`:
`ChatGoogleGenerativeAI(model=settings.MODEL_NAME, api_key=settings.GOOGLE_API_KEY,
temperature=0.0, max_tokens=settings.MAX_OUTPUT_TOKENS)`. -/
def llmFor (s : Settings) : LLMConfig :=
  { model := s.MODEL_NAME
    api_key := s.GOOGLE_API_KEY
    temperature := 0
    max_tokens := s.MAX_OUTPUT_TOKENS }

/-- A role/content message pair as received by the worker function. -/
structure PyMessage where
  role : String
  content : String
  deriving Repr, DecidableEq

/-- `process_langchain_request(ctx, messages)`: builds the LLM from the
settings, invokes it on the messages, and returns `response.content`; the
`except Exception` branch logs the error and re-raises it (`raise`), so an
executor failure propagates unchanged.  The external LLM call is abstracted
as `executor`, a function from the constructed LLM configuration and the
messages to either a text result or an exception message. -/
def process_langchain_request (s : Settings)
    (executor : LLMConfig → List PyMessage → Except String String)
    (messages : List PyMessage) : Except String String :=
  match executor (llmFor s) messages with
  | Except.ok response => Except.ok response
  | Except.error e => Except.error e

/-! ## The `/chat` dispatcher (`app/main.py`, `chat`)

The handler enqueues the job and then blocks on `job.result(timeout=30)`.
The possible outcomes of that wait, as arq delivers them:
  * the job finished and returned a value (for this app a string, but
    `None` is representable since arq returns whatever the job returned);
  * `asyncio.TimeoutError` raised after the 30-second caller-side wait;
  * the job ended `failed` after exhausting its retries, in which case
    `job.result` re-raises the stored exception.
Everything after the wait runs inside `try: ... except Exception as e:
raise HTTPException(status_code=500, detail=str(e))`. -/

inductive WaitOutcome where
  | success (r : Option String)
  | timeout
  | executionFailed (msg : String)
  deriving Repr, DecidableEq

structure ErrorResponse where
  status : Nat
  detail : String
  deriving Repr, DecidableEq

inductive ChatResponse where
  | ok (result : Option String)
  | err (e : ErrorResponse)
  deriving Repr, DecidableEq

/-- The literal `timeout=30` in `job.result(timeout=30)` (seconds). -/
def chatWaitTimeout : Nat := 30

/-- Python `str(asyncio.TimeoutError())` is the empty string. -/
def timeoutErrorStr : String := ""

/-- Starlette `HTTPException.__str__`: `f"{status_code}: {detail}"`. -/
def httpExceptionStr (status : Nat) (detail : String) : String :=
  toString status ++ ": " ++ detail

/-- The `chat` handler body, as a map from the wait outcome to the response
the caller receives.
  * a non-`None` result returns `{"result": result}`;
  * a `None` result raises `HTTPException(500, "Processing timed out")`
    inside the `try`, which the handler's own `except Exception` catches and
    re-wraps as `HTTPException(500, str(e))`;
  * the caller-wait `asyncio.TimeoutError` is caught and wrapped the same
    way, with `str(e) = ""`;
  * a re-raised job exception is caught and wrapped with its `str`. -/
def chat (outcome : WaitOutcome) : ChatResponse :=
  match outcome with
  | WaitOutcome.success (some r) => ChatResponse.ok (some r)
  | WaitOutcome.success none =>
      ChatResponse.err ⟨500, httpExceptionStr 500 "Processing timed out"⟩
  | WaitOutcome.timeout => ChatResponse.err ⟨500, timeoutErrorStr⟩
  | WaitOutcome.executionFailed msg => ChatResponse.err ⟨500, msg⟩

/-! ## Worker retry machinery

`WorkerSettings.max_tries = 3` configures arq's retry loop.  The loop itself
lives in the arq library, outside this repository's sources.

Modelled from the spec: the Worker Pool invokes the Task Executor once per
attempt, incrementing the attempt count; on success the job becomes
`succeeded`; on failure it is requeued while the attempt count is below
max-attempts, and becomes terminal `failed` once attempts reach that bound. -/

inductive JobStatus where
  | queued | running | succeeded | failed | timed_out
  deriving Repr, DecidableEq

structure JobRecord where
  status : JobStatus
  attempts : Nat
  deriving Repr, DecidableEq

inductive AttemptResult where
  | success (r : String)
  | failure (e : String)
  deriving Repr, DecidableEq

/-- One pass of the retry loop: `remaining` attempts are still allowed,
`done` have already run.  The executor is indexed by the attempt number.
A successful attempt ends the job `succeeded`; a failing attempt requeues
while further attempts remain (attempt count still below max-attempts),
and is terminal `failed` on the last allowed attempt. -/
def runAttempts (executor : Nat → AttemptResult) :
    (remaining : Nat) → (done : Nat) → JobRecord
  | 0, done => ⟨JobStatus.failed, done⟩
  | 1, done =>
    match executor (done + 1) with
    | AttemptResult.success _ => ⟨JobStatus.succeeded, done + 1⟩
    | AttemptResult.failure _ => ⟨JobStatus.failed, done + 1⟩
  | remaining + 2, done =>
    match executor (done + 1) with
    | AttemptResult.success _ => ⟨JobStatus.succeeded, done + 1⟩
    | AttemptResult.failure _ => runAttempts executor (remaining + 1) (done + 1)

/-- Run a job under a max-attempts bound, starting from zero attempts. -/
def runJob (maxTries : Nat) (executor : Nat → AttemptResult) : JobRecord :=
  runAttempts executor maxTries 0

/-! ## Queue monitor (`tools/monitor_queue.py`, `ArqMonitor.print_stats`)

The loop body is
`while True: if duration and time.time() - start_time > duration: break;
stats = ...; print(row); await asyncio.sleep(interval)`.
Time is modelled discretely: the elapsed clock advances by `interval` once
per iteration (the `asyncio.sleep`).  A `duration` of `None` — and, by
Python truthiness, `0` — never triggers the break. -/

/-- The snapshot `get_queue_stats` assembles from redis. -/
structure QueueStats where
  timestamp : String
  enqueued : Nat
  processing : Nat
  completed : Nat
  failed : Nat
  deriving Repr, DecidableEq

/-- Python's `"{:^10}".format(s)`: centre `s` in a field of width 10, the
extra space (odd padding) going to the right; a string of 10 or more
characters is left unchanged. -/
def formatCell (s : String) : String :=
  if s.length ≥ 10 then s
  else
    let pad := 10 - s.length
    let left := pad / 2
    String.mk (List.replicate left ' ') ++ s ++
      String.mk (List.replicate (pad - left) ' ')

/-- One printed stats row:
`f"{ts:^10} | {enq:^10} | {proc:^10} | {comp:^10} | {fail:^10}"`. -/
def statsRow (st : QueueStats) : String :=
  formatCell st.timestamp ++ " | " ++
  formatCell (toString st.enqueued) ++ " | " ++
  formatCell (toString st.processing) ++ " | " ++
  formatCell (toString st.completed) ++ " | " ++
  formatCell (toString st.failed)

/-- The loop's break guard `if duration and elapsed > duration`. -/
def monitorBreaks (duration : Option Nat) (elapsed : Nat) : Bool :=
  match duration with
  | none => false
  | some d => if d = 0 then false else decide (elapsed > d)

/-- The print loop, step-indexed by `fuel` (an upper bound on the number of
iterations considered): returns `some rows` when the guard breaks the loop
within `fuel` iterations and `rows` rows were printed before that, and
`none` when the loop is still running after `fuel` iterations (the
run-until-interrupted behaviour). -/
def monitorLoop (duration : Option Nat) (interval : Nat) :
    (fuel : Nat) → (elapsed : Nat) → Option Nat
  | 0, _ => none
  | fuel + 1, elapsed =>
    if monitorBreaks duration elapsed then some 0
    else
      match monitorLoop duration interval fuel (elapsed + interval) with
      | none => none
      | some rows => some (rows + 1)

/-! ## Concrete instances used when instantiating general theorems -/

def sampleSettings : Settings :=
  { GOOGLE_API_KEY := "sample-key"
    MODEL_NAME := "gemini-2.0-flash"
    OUTPUT_FOLDER := "output_1"
    MAX_CONCURRENCY := 10
    MAX_OUTPUT_TOKENS := 8192
    API_BASE_URL := some "https://api-dev.maverickcosts.com"
    FASTAPI_KEY := "your-api-key-here"
    MAX_TASK_RUNTIME := 3600
    REDIS_HOST := "redis"
    REDIS_PORT := 6379
    API_CONCURRENCY_LIMIT := 10 }

/-- A settings object disagreeing with `sampleSettings` in every field. -/
def altSettings : Settings :=
  { GOOGLE_API_KEY := "another-key"
    MODEL_NAME := "gemini-1.5-pro"
    OUTPUT_FOLDER := "output_2"
    MAX_CONCURRENCY := 3
    MAX_OUTPUT_TOKENS := 1024
    API_BASE_URL := none
    FASTAPI_KEY := "fk"
    MAX_TASK_RUNTIME := 60
    REDIS_HOST := "localhost"
    REDIS_PORT := 6380
    API_CONCURRENCY_LIMIT := 2 }

/-! ## Supporting lemmas -/

/-- `process_langchain_request` is the executor invocation at `llmFor s`,
with both outcomes passed through (result returned, exception re-raised). -/
lemma process_eq_executor (s : Settings)
    (executor : LLMConfig → List PyMessage → Except String String)
    (messages : List PyMessage) :
    process_langchain_request s executor messages = executor (llmFor s) messages := by
  unfold process_langchain_request
  cases executor (llmFor s) messages <;> rfl

/-- Attempt counts never pass the allowed budget. -/
lemma runAttempts_attempts_le (ex : Nat → AttemptResult) :
    ∀ remaining done, (runAttempts ex remaining done).attempts ≤ done + remaining := by
  intro remaining
  induction remaining with
  | zero => intro done; simp [runAttempts]
  | succ r ih =>
    intro done
    cases r with
    | zero => cases hx : ex (done + 1) <;> simp [runAttempts, hx]
    | succ r2 =>
      cases hx : ex (done + 1) with
      | success v => simp [runAttempts, hx]
      | failure e =>
        have h2 := ih (done + 1)
        simp only [runAttempts, hx]
        omega

/-- With an executor that fails on every attempt, the whole budget is spent
and the job ends `failed`. -/
lemma runAttempts_all_fail (ex : Nat → AttemptResult)
    (hfail : ∀ n, ∃ e, ex n = AttemptResult.failure e) :
    ∀ remaining done, 0 < remaining →
      runAttempts ex remaining done = ⟨JobStatus.failed, done + remaining⟩ := by
  intro remaining
  induction remaining with
  | zero => intro done h; omega
  | succ r ih =>
    intro done _
    obtain ⟨e, he⟩ := hfail (done + 1)
    cases r with
    | zero => simp [runAttempts, he]
    | succ r2 =>
      have h2 := ih (done + 1) (by omega)
      simp only [runAttempts, he, h2]
      have harith : done + 1 + (r2 + 1) = done + (r2 + 1 + 1) := by omega
      rw [harith]

/-- Any successfully constructed settings object is determined by the
environment exactly as the `Settings` class declares. -/
lemma get_settings_ok (env : Env) (s : Settings) (h : get_settings env = Except.ok s) :
    ∃ key mc mtk mrt rp ac,
      env.get "GOOGLE_API_KEY" = some key
    ∧ env.getNat "MAX_CONCURRENCY" 10 = Except.ok mc
    ∧ env.getNat "MAX_OUTPUT_TOKENS" 8192 = Except.ok mtk
    ∧ env.getNat "MAX_TASK_RUNTIME" 3600 = Except.ok mrt
    ∧ env.getNat "REDIS_PORT" 6379 = Except.ok rp
    ∧ env.getNat "API_CONCURRENCY_LIMIT" 10 = Except.ok ac
    ∧ s = { GOOGLE_API_KEY := key
            MODEL_NAME := env.getStr "MODEL_NAME" "gemini-2.0-flash"
            OUTPUT_FOLDER := env.getStr "OUTPUT_FOLDER" "output_1"
            MAX_CONCURRENCY := mc
            MAX_OUTPUT_TOKENS := mtk
            API_BASE_URL := some (env.getStr "API_BASE_URL" "https://api-dev.maverickcosts.com")
            FASTAPI_KEY := env.getStr "FASTAPI_KEY" "your-api-key-here"
            MAX_TASK_RUNTIME := mrt
            REDIS_HOST := env.getStr "REDIS_HOST" "redis"
            REDIS_PORT := rp
            API_CONCURRENCY_LIMIT := ac } := by
  unfold get_settings at h
  split at h
  · exact absurd h (by simp)
  next key hk =>
    split at h
    next e h1 => exact absurd h (by simp)
    next mc h1 =>
      split at h
      next e h2 => exact absurd h (by simp)
      next mtk h2 =>
        split at h
        next e h3 => exact absurd h (by simp)
        next mrt h3 =>
          split at h
          next e h4 => exact absurd h (by simp)
          next rp h4 =>
            split at h
            next e h5 => exact absurd h (by simp)
            next ac h5 =>
              exact ⟨key, mc, mtk, mrt, rp, ac, hk, h1, h2, h3, h4, h5,
                (Except.ok.inj h).symm⟩

/-- The centred cell is exactly 10 characters when the field fits, and the
raw field otherwise. -/
lemma formatCell_length (s : String) : (formatCell s).length = max s.length 10 := by
  unfold formatCell
  by_cases h : s.length ≥ 10
  · simp only [h, if_true]
    omega
  · simp only [h, if_false]
    simp [String.length_append]
    omega

/-- A run with no duration never breaks out of the loop. -/
lemma monitorLoop_none (i : Nat) :
    ∀ fuel elapsed, monitorLoop none i fuel elapsed = none := by
  intro fuel
  induction fuel with
  | zero => intro _; rfl
  | succ f ih =>
    intro elapsed
    unfold monitorLoop
    simp [monitorBreaks, ih]

/-- Exact row count of the monitor loop under a positive duration: given
enough fuel, the loop breaks after printing `(d - elapsed) / i + 1` further
rows (none when already past the deadline). -/
lemma monitorLoop_closed_form (d i : Nat) (hd : 0 < d) (hi : 0 < i) :
    ∀ fuel elapsed, d < elapsed + fuel * i →
      monitorLoop (some d) i (fuel + 1) elapsed
        = some (if d < elapsed then 0 else (d - elapsed) / i + 1) := by
  intro fuel
  induction fuel with
  | zero =>
    intro elapsed h
    simp only [Nat.zero_mul, Nat.add_zero] at h
    unfold monitorLoop
    have hb : monitorBreaks (some d) elapsed = true := by
      show (if d = 0 then false else decide (elapsed > d)) = true
      rw [if_neg (by omega)]
      simpa using h
    rw [hb]
    simp [h]
  | succ f ih =>
    intro elapsed h
    rw [Nat.succ_mul] at h
    by_cases hlt : d < elapsed
    · unfold monitorLoop
      have hb : monitorBreaks (some d) elapsed = true := by
        show (if d = 0 then false else decide (elapsed > d)) = true
        rw [if_neg (by omega)]
        simpa using hlt
      rw [hb]
      simp [hlt]
    · have hrec := ih (elapsed + i) (by omega)
      unfold monitorLoop
      have hb : monitorBreaks (some d) elapsed = false := by
        show (if d = 0 then false else decide (elapsed > d)) = false
        rw [if_neg (by omega)]
        simpa using hlt
      rw [hb]
      simp only [Bool.false_eq_true, if_false]
      rw [hrec]
      simp only [hlt, if_false]
      by_cases h2 : d < elapsed + i
      · simp only [h2, if_true]
        have hsmall : d - elapsed < i := by omega
        rw [Nat.div_eq_of_lt hsmall]
      · simp only [h2, if_false]
        have hle : i ≤ d - elapsed := by omega
        rw [Nat.div_eq_sub_div hi hle]
        have harith : d - elapsed - i = d - (elapsed + i) := by omega
        rw [harith]

/-! ## Claims -/

/-- C1: the dispatcher's caller-side wait bound is the literal 30 seconds of
`job.result(timeout=30)`, and a wait that ends in the timeout outcome is
answered with an error response (HTTP 500), not a hang: `chat` totally maps
the timeout outcome to an error response. -/
theorem chat_wait_timeout_is_thirty_seconds :
    chatWaitTimeout = 30
  ∧ chat WaitOutcome.timeout = ChatResponse.err ⟨500, timeoutErrorStr⟩ :=
  ⟨rfl, rfl⟩

/-- C2 counterexample: the handler maps both the caller-wait timeout and a
retries-exhausted execution failure through the same
`except Exception as e: raise HTTPException(500, str(e))` branch, so when
the stored execution error renders to the empty string (as
`str(asyncio.TimeoutError())` does) the two caller-visible responses are
identical, refuting the claimed distinctness. -/
theorem chat_timeout_and_failure_can_collide :
    chat WaitOutcome.timeout = chat (WaitOutcome.executionFailed "")
  ∧ chat WaitOutcome.timeout = ChatResponse.err ⟨500, ""⟩ :=
  ⟨rfl, rfl⟩

/-- C2 (amended): the handler maps a caller-wait timeout and an exhausted
execution failure to structured status-500 error responses whose message is
the string rendering of the underlying exception; the two responses are
distinct whenever the execution error's rendering differs from the timeout
rendering (the empty string), but not otherwise; no failure is ever
propagated verbatim — every failure path yields a structured status and
message. -/
theorem chat_failure_mapping_structured :
    (∀ msg, chat (WaitOutcome.executionFailed msg) = ChatResponse.err ⟨500, msg⟩)
  ∧ chat WaitOutcome.timeout = ChatResponse.err ⟨500, timeoutErrorStr⟩
  ∧ chat (WaitOutcome.success none)
      = ChatResponse.err ⟨500, httpExceptionStr 500 "Processing timed out"⟩
  ∧ (∀ msg, msg ≠ timeoutErrorStr →
      chat (WaitOutcome.executionFailed msg) ≠ chat WaitOutcome.timeout) := by
  refine ⟨fun msg => rfl, rfl, rfl, ?_⟩
  intro msg hmsg hcontra
  apply hmsg
  simpa [chat, timeoutErrorStr] using hcontra

/-- Witness for the amended C2 at a concrete non-empty error message. -/
theorem chat_failure_mapping_structured_witness :
    chat (WaitOutcome.executionFailed "boom") = ChatResponse.err ⟨500, "boom"⟩
  ∧ chat (WaitOutcome.executionFailed "boom") ≠ chat WaitOutcome.timeout :=
  ⟨chat_failure_mapping_structured.1 "boom",
   chat_failure_mapping_structured.2.2.2 "boom" (by decide)⟩

/-- C3: a request whose job runs to success with the executor's text output
`r` is answered `{"result": r}`; a failed request is answered with an error
object carrying a message (detail string), for both the exhausted-retries
and the caller-timeout outcome. -/
theorem chat_success_returns_result :
    (∀ r : String, chat (WaitOutcome.success (some r)) = ChatResponse.ok (some r))
  ∧ (∀ msg, chat (WaitOutcome.executionFailed msg) = ChatResponse.err ⟨500, msg⟩)
  ∧ chat WaitOutcome.timeout = ChatResponse.err ⟨500, timeoutErrorStr⟩ :=
  ⟨fun _ => rfl, fun _ => rfl, rfl⟩

/-- C4: with the configured `max_tries = 3` of `WorkerSettings`, a job whose
executor fails on every attempt ends terminal `failed` after exactly 3
attempts, and no job's attempt count ever exceeds its max-attempts bound. -/
theorem job_fails_after_exactly_three_attempts (s : Settings)
    (executor : Nat → AttemptResult)
    (hfail : ∀ n, ∃ e, executor n = AttemptResult.failure e) :
    runJob (mkWorkerSettings s).max_tries executor = ⟨JobStatus.failed, 3⟩
  ∧ (mkWorkerSettings s).max_tries = 3
  ∧ (∀ (mt : Nat) (ex : Nat → AttemptResult), (runJob mt ex).attempts ≤ mt) := by
  refine ⟨?_, rfl, ?_⟩
  · have h := runAttempts_all_fail executor hfail 3 0 (by omega)
    simpa [runJob, mkWorkerSettings] using h
  · intro mt ex
    have h := runAttempts_attempts_le ex mt 0
    simpa [runJob] using h

/-- Witness for C4: the always-failing executor at the configured settings. -/
theorem job_fails_after_exactly_three_attempts_witness :
    runJob (mkWorkerSettings sampleSettings).max_tries
      (fun _ => AttemptResult.failure "boom") = ⟨JobStatus.failed, 3⟩ :=
  (job_fails_after_exactly_three_attempts sampleSettings
    (fun _ => AttemptResult.failure "boom") (fun _ => ⟨"boom", rfl⟩)).1

/-- C5 counterexample: the configuration surface (`Settings`) has no
temperature field, and `process_langchain_request` passes the hard-coded
literal `temperature=0.0` to the executor: two settings objects that
disagree in every field still yield the same executor temperature, so the
determinism parameter is not passed through from configuration. -/
theorem llm_temperature_not_from_config :
    (llmFor sampleSettings).temperature = 0
  ∧ (llmFor altSettings).temperature = 0
  ∧ sampleSettings ≠ altSettings :=
  ⟨rfl, rfl, by decide⟩

/-- C5 (amended): the model identifier (`MODEL_NAME`), the output-token cap
(`MAX_OUTPUT_TOKENS`) and the API key are passed from the settings object to
the executor unchanged, and the executor is invoked with exactly that
configuration; the temperature, however, is the fixed literal `0.0` set by
the worker, not a configuration value. -/
theorem llm_config_passthrough (s : Settings)
    (executor : LLMConfig → List PyMessage → Except String String)
    (messages : List PyMessage) :
    (llmFor s).model = s.MODEL_NAME
  ∧ (llmFor s).api_key = s.GOOGLE_API_KEY
  ∧ (llmFor s).max_tokens = s.MAX_OUTPUT_TOKENS
  ∧ (llmFor s).temperature = 0
  ∧ process_langchain_request s executor messages = executor (llmFor s) messages :=
  ⟨rfl, rfl, rfl, rfl, process_eq_executor s executor messages⟩

/-- C6 counterexample: an environment that asks for a different per-job
timeout, retry count and retention window produces the same worker
configuration as one that sets nothing: `job_timeout = 60`,
`keep_result = 300` and `max_tries = 3` are fixed literals of the
`WorkerSettings` class, not environment-sourced values. -/
theorem worker_constants_ignore_environment :
    (get_settings [("GOOGLE_API_KEY", "k"), ("JOB_TIMEOUT", "5"),
        ("MAX_TRIES", "7"), ("KEEP_RESULT", "10")]).map mkWorkerSettings
      = Except.ok ⟨"redis", 6379, 10, 60, 300, 3⟩
  ∧ (get_settings [("GOOGLE_API_KEY", "k")]).map mkWorkerSettings
      = Except.ok ⟨"redis", 6379, 10, 60, 300, 3⟩ := by
  constructor <;> rfl

/-- C6 (amended): the queue backend host/port and the worker concurrency
limit are environment-sourced (`REDIS_HOST`, `REDIS_PORT`,
`API_CONCURRENCY_LIMIT`, with their declared defaults); the per-job timeout,
the result retention window and the max retry attempts are the fixed
constants 60, 300 and 3. -/
theorem worker_config_env_sources (env : Env) (s : Settings)
    (h : get_settings env = Except.ok s) :
    (mkWorkerSettings s).redis_host = env.getStr "REDIS_HOST" "redis"
  ∧ env.getNat "REDIS_PORT" 6379 = Except.ok (mkWorkerSettings s).redis_port
  ∧ env.getNat "API_CONCURRENCY_LIMIT" 10 = Except.ok (mkWorkerSettings s).max_jobs
  ∧ (mkWorkerSettings s).job_timeout = 60
  ∧ (mkWorkerSettings s).keep_result = 300
  ∧ (mkWorkerSettings s).max_tries = 3 := by
  obtain ⟨key, mc, mtk, mrt, rp, ac, hk, h1, h2, h3, h4, h5, hseq⟩ :=
    get_settings_ok env s h
  subst hseq
  exact ⟨rfl, h4, h5, rfl, rfl, rfl⟩

/-- Witness for the amended C6 at a concrete one-variable environment. -/
theorem worker_config_env_sources_witness :
    (mkWorkerSettings sampleSettings).job_timeout = 60
  ∧ (mkWorkerSettings sampleSettings).keep_result = 300
  ∧ (mkWorkerSettings sampleSettings).max_tries = 3
  ∧ (mkWorkerSettings sampleSettings).redis_host
      = Env.getStr [("GOOGLE_API_KEY", "sample-key")] "REDIS_HOST" "redis" := by
  have h := worker_config_env_sources [("GOOGLE_API_KEY", "sample-key")]
    sampleSettings rfl
  exact ⟨h.2.2.2.1, h.2.2.2.2.1, h.2.2.2.2.2, h.1⟩

/-- C7: settings construction is fatal when the executor credential is
missing: an environment with no `GOOGLE_API_KEY` makes `get_settings` fail
with a validation error, and every successfully constructed settings object
carries the credential found in the environment. -/
theorem settings_fatal_on_missing_api_key (env : Env)
    (h : env.get "GOOGLE_API_KEY" = none) :
    get_settings env = Except.error "ValidationError: GOOGLE_API_KEY field required"
  ∧ (∀ (env2 : Env) (s : Settings), get_settings env2 = Except.ok s →
      env2.get "GOOGLE_API_KEY" = some s.GOOGLE_API_KEY) := by
  constructor
  · unfold get_settings
    rw [h]
  · intro env2 s hs
    obtain ⟨key, mc, mtk, mrt, rp, ac, hk, -, -, -, -, -, hseq⟩ :=
      get_settings_ok env2 s hs
    rw [hk, hseq]

/-- Witness for C7: the empty environment fails, a one-variable environment
carries its key into the settings object. -/
theorem settings_fatal_on_missing_api_key_witness :
    get_settings []
      = Except.error "ValidationError: GOOGLE_API_KEY field required"
  ∧ Env.get [("GOOGLE_API_KEY", "sample-key")] "GOOGLE_API_KEY"
      = some sampleSettings.GOOGLE_API_KEY :=
  ⟨(settings_fatal_on_missing_api_key [] rfl).1,
   (settings_fatal_on_missing_api_key [] rfl).2
     [("GOOGLE_API_KEY", "sample-key")] sampleSettings rfl⟩

/-- C8: with a positive duration `d` and polling interval `i` the monitor
loop terminates once the elapsed time exceeds `d`, printing exactly
`d / i + 1` rows, one per polling iteration spaced by `i`; each printed row
is the fixed-width 62-character table line; with no duration the loop never
breaks (it runs until interrupted). -/
theorem monitor_loop_behaviour (d i : Nat) (hd : 0 < d) (hi : 0 < i) :
    monitorLoop (some d) i (d / i + 2) 0 = some (d / i + 1)
  ∧ (∀ st : QueueStats, st.timestamp.length ≤ 10 →
      (toString st.enqueued).length ≤ 10 →
      (toString st.processing).length ≤ 10 →
      (toString st.completed).length ≤ 10 →
      (toString st.failed).length ≤ 10 →
      (statsRow st).length = 62)
  ∧ (∀ (j fuel elapsed : Nat), monitorLoop none j fuel elapsed = none) := by
  refine ⟨?_, ?_, fun j fuel elapsed => monitorLoop_none j fuel elapsed⟩
  · have hfuel : d < 0 + (d / i + 1) * i := by
      have key : (d / i + 1) * i = i * (d / i) + i := by ring
      have hdm := Nat.div_add_mod d i
      have hmod := Nat.mod_lt d hi
      omega
    have h := monitorLoop_closed_form d i hd hi (d / i + 1) 0 hfuel
    have hnd : ¬ d < 0 := by omega
    rw [if_neg hnd, Nat.sub_zero] at h
    exact h
  · intro st h1 h2 h3 h4 h5
    unfold statsRow
    simp only [String.length_append, formatCell_length,
      Nat.max_eq_right h1, Nat.max_eq_right h2, Nat.max_eq_right h3,
      Nat.max_eq_right h4, Nat.max_eq_right h5]
    rfl

/-- Witness for C8: duration 5 and interval 2 print three rows then stop;
the sample row is 62 characters; a run with no duration never breaks. -/
theorem monitor_loop_behaviour_witness :
    monitorLoop (some 5) 2 (5 / 2 + 2) 0 = some (5 / 2 + 1)
  ∧ (statsRow ⟨"12:00:00", 1, 2, 3, 4⟩).length = 62
  ∧ monitorLoop none 1 3 0 = none := by
  have h := monitor_loop_behaviour 5 2 (by decide) (by decide)
  exact ⟨h.1,
    h.2.1 ⟨"12:00:08", 1, 2, 3, 4⟩ (by decide) (by decide) (by decide)
      (by decide) (by decide),
    h.2.2 1 3 0⟩

/-- C9: every exception raised inside the handler body, including the
`HTTPException(500, "Processing timed out")` the handler itself raises on a
`None` wait result, is caught by the generic `except Exception` branch and
re-wrapped as `HTTPException(500, str(e))`; in that internal-timeout case the
caller-visible detail is the re-rendered `"500: Processing timed out"`, not
the original `"Processing timed out"`. -/
theorem chat_rewraps_internal_http_exception :
    chat (WaitOutcome.success none)
      = ChatResponse.err ⟨500, httpExceptionStr 500 "Processing timed out"⟩
  ∧ httpExceptionStr 500 "Processing timed out" = "500: Processing timed out"
  ∧ chat (WaitOutcome.success none)
      ≠ ChatResponse.err ⟨500, "Processing timed out"⟩
  ∧ (∀ msg, chat (WaitOutcome.executionFailed msg) = ChatResponse.err ⟨500, msg⟩)
  ∧ chat WaitOutcome.timeout = ChatResponse.err ⟨500, timeoutErrorStr⟩ :=
  ⟨rfl, by decide, by decide, fun _ => rfl, rfl⟩

/-- C10: when the LLM invocation fails, `process_langchain_request`
re-raises that same exception to the worker pool and never converts a failed
attempt into a normal return value. -/
theorem process_reraises_executor_failure (s : Settings)
    (executor : LLMConfig → List PyMessage → Except String String)
    (messages : List PyMessage) (e : String)
    (h : executor (llmFor s) messages = Except.error e) :
    process_langchain_request s executor messages = Except.error e
  ∧ ∀ r, process_langchain_request s executor messages ≠ Except.ok r := by
  constructor
  · rw [process_eq_executor, h]
  · intro r hr
    rw [process_eq_executor, h] at hr
    exact Except.noConfusion hr

/-- Witness for C10 at a concrete always-failing executor. -/
theorem process_reraises_executor_failure_witness :
    process_langchain_request sampleSettings
      (fun _ _ => Except.error "rate limited") [] = Except.error "rate limited" :=
  (process_reraises_executor_failure sampleSettings
    (fun _ _ => Except.error "rate limited") [] "rate limited" rfl).1

end ArqGateway
